import Mathlib

/-
Verification of the lagged-feature regression forecaster
(`darts/models/regression_model.py`) against its natural-language
specification.  The Python source is shallowly embedded below: pure
computations become Lean functions, the mutation of `self` in `fit`
becomes an explicit transition on an attribute record, and Python
exceptions become `Except` values.  Rows of a time series are keyed by
their position in the series, values are integers (stand-ins for the
reals: none of the verified properties depend on the arithmetic of the
values themselves).
-/

set_option autoImplicit false

namespace Darts

/-- Uncontrolled Python interpreter errors that the module can run into
(as opposed to the errors it raises deliberately). -/
inductive PyErr where
  | indexError
  | typeError
  | attributeError
  | valueError
  deriving DecidableEq

/-- Errors surfaced by the module.  `configurationError` stands for the
errors raised through `raise_if` / `raise_if_not` (invalid or
inconsistent arguments: the spec's `ConfigurationError` taxon),
`exception` for `raise_log(Exception(...))`, and `pyError` for
uncontrolled interpreter errors. -/
inductive DartsError where
  | configurationError (msg : String)
  | exception (msg : String)
  | pyError (e : PyErr)
  deriving DecidableEq

instance {ε α : Type} [DecidableEq ε] [DecidableEq α] :
    DecidableEq (Except ε α) := fun a b =>
  match a, b with
  | .error e, .error f =>
    if h : e = f then .isTrue (by rw [h])
    else .isFalse (fun hc => h (Except.error.inj hc))
  | .ok x, .ok y =>
    if h : x = y then .isTrue (by rw [h])
    else .isFalse (fun hc => h (Except.ok.inj hc))
  | .error _, .ok _ => .isFalse (fun hc => Except.noConfusion hc)
  | .ok _, .error _ => .isFalse (fun hc => Except.noConfusion hc)

/-- The wrapped estimator object, as far as the constructor inspects it:
either the sklearn `LinearRegression` (with its `fit_intercept` flag) or
an arbitrary object whose `fit` / `predict` attributes may or may not be
callable. -/
inductive Estim where
  | linearRegression (fit_intercept : Bool)
  | custom (hasFit hasPredict : Bool)
  deriving DecidableEq

/-- `callable(getattr(model, "fit", None))` for a non-None `model`. -/
def Estim.fitCallable : Estim → Bool
  | .linearRegression _ => true
  | .custom f _ => f

/-- `callable(getattr(model, "predict", None))` for a non-None `model`. -/
def Estim.predictCallable : Estim → Bool
  | .linearRegression _ => true
  | .custom _ p => p

/-- The `lags` constructor argument (line 34): an int, a list of ints, or
`None`. -/
inductive LagsArg where
  | int (k : Int)
  | list (l : List Int)
  | pyNone
  deriving DecidableEq

/-- The `lags_exog` constructor argument (line 35): an int, a list of
ints, `True`, `False`, or `None`. -/
inductive LagsExogArg where
  | int (k : Int)
  | list (l : List Int)
  | pyTrue
  | pyFalse
  | pyNone
  deriving DecidableEq

/-- The model configuration produced by `__init__` (lines 78-110):
processed target and exogenous lag lists, the wrapped estimator, the
derived `max_lag`, and the `_fit_called` flag. -/
structure Config where
  lags : Option (List Int)
  lags_exog : Option (List Int)
  model : Estim
  max_lag : Int
  fit_called : Bool
  deriving DecidableEq

/-- Python `list(range(1, k+1))`. -/
def intRange1 (k : Int) : List Int :=
  (List.range k.toNat).map (fun i => Int.ofNat i + 1)

/-- Python `max` over a list; raises `ValueError` on an empty sequence. -/
def pyMax : List Int → Except DartsError Int
  | [] => .error (.pyError .valueError)
  | x :: xs => .ok (xs.foldl max x)

/-- Lean image of `RegressionModel.__init__` (lines 33-110), in source
order: the `lags`/`lags_exog` consistency checks, then the
`fit`/`predict` callable checks on the given `model` (before the
`model is None` default on lines 75-76), then lag-list expansion and the
`max_lag` computation. -/
def regressionModelInit (lags : LagsArg) (lags_exog : LagsExogArg)
    (model : Option Estim) : Except DartsError Config := do
  -- line 57: at least one of the two lag arguments
  if lags = .pyNone ∧ lags_exog = .pyNone then
    throw (.configurationError
      "At least one of 'lags' or 'lags_exog' must be not None.")
  -- lines 60-65: the isinstance checks always pass in this typed embedding
  -- line 66
  if lags = .pyNone ∧ lags_exog = .pyTrue then
    throw (.configurationError "`lags_exog` must not be True if `lags` is None.")
  -- lines 70-73: these checks run BEFORE the `model is None` default below,
  -- so `model = None` fails here (getattr(None, "fit", None) is not callable)
  let fitOk := match model with
    | none => false
    | some m => m.fitCallable
  if fitOk = false then
    throw (.exception "Provided model object must have a fit() method")
  let predOk := match model with
    | none => false
    | some m => m.predictCallable
  if predOk = false then
    throw (.exception "Provided model object must have a predict() method")
  -- lines 75-76: the default estimator (unreachable for `model = None`,
  -- since the callable checks above have already raised)
  let model := match model with
    | none => Estim.linearRegression false
    | some m => m
  -- lines 78-86: self.lags
  let lagsL : Option (List Int) ←
    match lags with
    | .int k =>
      if 0 < k then pure (some (intRange1 k))
      else throw (.configurationError "`lags` must be strictly positive.")
    | .list l =>
      if l.all (fun x => 0 < x) then pure (some l)
      else throw (.configurationError
        "Every element of `lags` must be a strictly positive integer.")
    | .pyNone => pure none
  -- lines 88-101: self.lags_exog
  let lagsE : Option (List Int) ←
    match lags_exog with
    | .pyTrue =>
      -- line 90: `self.lags[:]`; `None[:]` would be a TypeError, but
      -- `lags is None and lags_exog is True` was rejected on line 66
      match lagsL with
      | some l => pure (some l)
      | none => throw (.pyError .typeError)
    | .pyFalse => pure (some [0])
    | .int k =>
      if 0 < k then pure (some (intRange1 k))
      else throw (.configurationError "`lags_exog` must be strictly positive.")
    | .list l =>
      if l.all (fun x => 0 ≤ x) then pure (some l)
      else throw (.configurationError
        "Every element of `lags_exog` must be a positive integer.")
    | .pyNone => pure none
  -- lines 104-109: max_lag
  let maxLag : Int ←
    match lagsL, lagsE with
    | some l, none => pyMax l
    | none, some e => pyMax e
    | some l, some e => do
      let ml ← pyMax l
      let ne ← pyMax e
      pure (max ml ne)
    | none, none =>
      -- unreachable: rejected on line 57; `max(None)` would be a TypeError
      throw (.pyError .typeError)
  pure { lags := lagsL, lags_exog := lagsE, model := model,
         max_lag := maxLag, fit_called := false }

/-! ### The Lag-Feature Builder (`_create_lagged_data`, `_create_training_data`) -/

/-- Pandas `Series.shift(lag)` read at row `i` of a series of values
`xs` indexed by position: the value `lag` steps in the past, `NaN`
(`none`) when that position falls outside the series. -/
def shiftIdx (xs : List Int) (lag : Int) (i : Nat) : Option Int :=
  let j : Int := (i : Int) - lag
  if 0 ≤ j ∧ j < (xs.length : Int) then xs[j.toNat]? else none

/-- Turns a row of cells into `none` when any cell is `NaN`: the row
test performed by `DataFrame.dropna`. -/
def seqOptions {α : Type} : List (Option α) → Option (List α)
  | [] => some []
  | none :: _ => none
  | some x :: rest => (seqOptions rest).map (fun r => x :: r)

/-- Lean image of `_create_lagged_data` (lines 192-217): one shifted
column per requested lag, then `dropna` removes every row with an
undefined cell; the unshifted value column is dropped (line 216), so
only the lag columns remain.  Rows are keyed by their position in the
input series. -/
def create_lagged_data (xs : List Int) (lags : List Int) : List (Nat × List Int) :=
  (List.range xs.length).filterMap (fun i =>
    (seqOptions (lags.map (fun l => shiftIdx xs l i))).map (fun r => (i, r)))

/-- Lean image of `pd.concat(training_data_list, axis=1)` followed by
`.dropna()` (lines 189-190): the concatenation aligns rows by index
label (an outer join that fills `NaN` where a frame lacks a row), and
the `dropna` then keeps exactly the rows present in every frame. -/
def concatDropna (n : Nat) (frames : List (List (Nat × List Int))) :
    List (Nat × List Int) :=
  (List.range n).filterMap (fun i =>
    ((seqOptions (frames.map (fun fr => fr.lookup i))).map List.flatten).map
      (fun r => (i, r)))

/-- Lean image of `_create_training_data` (lines 157-190) on the column
values: one lagged frame for the target when target lags are configured
(lines 178-180), then one lagged frame per exogenous column when
exogenous lags are configured (lines 182-187), concatenated and
`NaN`-dropped (lines 189-190).  The `pd.concat` of an empty frame list
(both lag sets `None`) would raise, but that configuration is rejected
by the constructor (line 57). -/
def create_training_data (lags lagsE : Option (List Int)) (target : List Int)
    (exogs : List (List Int)) : List (Nat × List Int) :=
  let frames :=
    (match lags with
     | some L => [create_lagged_data target L]
     | none => []) ++
    (match lagsE with
     | some E => exogs.map (fun c => create_lagged_data c E)
     | none => [])
  concatDropna target.length frames

/-- Specification-side predicate: row `i` has every requested shifted
value defined — each configured target lag of the target and each
configured exogenous lag of each exogenous column. -/
def allLagsDefined (lags lagsE : Option (List Int)) (target : List Int)
    (exogs : List (List Int)) (i : Nat) : Bool :=
  (match lags with
   | some L => L.all (fun l => (shiftIdx target l i).isSome)
   | none => true)
  && (match lagsE with
      | some E => exogs.all (fun c => E.all (fun l => (shiftIdx c l i).isSome))
      | none => true)

/-- All lag values appearing in the configured lag sets. -/
def usedLags (lags lagsE : Option (List Int)) : List Int :=
  lags.getD [] ++ lagsE.getD []

/-- Maximum of a list of non-negative integers (`0` on the empty list). -/
def listMax (l : List Int) : Int := l.foldr max 0

/-! ### Fit orchestration (`RegressionModel.fit`) -/

/-- A pandas axis label: a row-index label is a timestamp, a column
label is a name.  Both live on the same label type because
`DataFrame.rename` takes one mapping over axis labels. -/
inductive PdLabel where
  | timestamp (t : Nat)
  | colName (s : String)
  deriving DecidableEq, BEq

/-- A time series as `fit` consumes it: a row index of timestamp labels
and named value columns (rows of the columns are keyed by position). -/
structure FitSeries where
  index : List PdLabel
  cols : List (String × List Int)
  deriving DecidableEq

/-- Semantics of `DataFrame.rename(mapper)` when the mapper is passed
positionally and neither `axis` nor `columns` is given, as on line 135:
pandas applies the mapping to the labels of axis 0, the row index.
Column names are not touched. -/
def pdRename (mapping : List (PdLabel × PdLabel)) (s : FitSeries) : FitSeries :=
  { s with index := s.index.map (fun l => ((mapping.lookup l).getD l)) }

/-- A Python attribute that may not have been assigned yet (reading an
`unset` attribute would be an `AttributeError`). -/
inductive Attr (α : Type) where
  | unset
  | set (v : α)
  deriving DecidableEq

/-- The attributes of a `RegressionModel` instance that `fit` assigns —
the spec's Fitted State (plus the `_fit_called` flag, which the
constructor initialises to `False` on line 110).  The rolling seed
window rows are (target value, exogenous values) pairs. -/
structure ModelAttrs where
  exog_columns : Attr (Option (List String))
  nr_exog : Attr Nat
  target_column : Attr String
  prediction_data : Attr (List (Int × List Int))
  fit_called : Bool
  deriving DecidableEq

/-- The attribute record of a freshly constructed, never fitted model. -/
def freshAttrs : ModelAttrs :=
  { exog_columns := .unset, nr_exog := .unset, target_column := .unset,
    prediction_data := .unset, fit_called := false }

/-- The slice of the model configuration that `fit` reads. -/
structure FitConfig where
  lags : Option (List Int)
  lags_exog : Option (List Int)
  max_lag : Nat
  deriving DecidableEq

/-- Lean image of `_create_training_data` (lines 157-190) as called on
series objects: the univariate-target check of line 172, then the
positional builder `create_training_data` on the column values. -/
def createTrainingDataDF (lags lagsE : Option (List Int)) (series : FitSeries)
    (exog : Option FitSeries) : Except DartsError (List (Nat × List Int)) :=
  if 1 < series.cols.length then
    .error (.configurationError
      "Series must not be multivariate. Pass exogenous variables to 'exog' parameter.")
  else if lagsE.isSome ∧ exog.isNone then
    -- line 183: `exog.columns()` on `None`
    .error (.pyError .attributeError)
  else
    .ok (create_training_data lags lagsE
      (match series.cols with
       | [] => []
       | c :: _ => c.2)
      (match exog with
       | some e => e.cols.map Prod.snd
       | none => []))

/-- Lean image of `RegressionModel.fit` (lines 112-155) as a transition
on the model's attribute record.  Python mutates `self` field by field,
so the function returns the attributes as assigned up to the point of
failure together with the error, `none` meaning success.  The estimator
is a collaborator receiving the feature rows and the label vector; its
own failure propagates unchanged (modelled by the `Except` it returns).
The base-class `super().fit` call (line 122, not among the sources)
assigns none of these attributes. -/
def fitModel (cfg : FitConfig) (st : ModelAttrs) (series : FitSeries)
    (exog : Option FitSeries)
    (estFit : List (List Int) → List Int → Except String Unit) :
    ModelAttrs × Option DartsError :=
  -- lines 123-128: presence of `exog` must match `lags_exog`
  if exog.isSome ∧ cfg.lags_exog.isNone then
    (st, some (.configurationError
      "`exog` not None in `fit()` method call, but `lags_exog` is None in constructor. "))
  else if exog.isNone ∧ cfg.lags_exog.isSome then
    (st, some (.configurationError
      "`exog` is None in `fit()` method call, but `lags_exog` is not None in constructor. "))
  else
    -- lines 129-130
    let exogCols : Option (List String) := exog.map (fun e => e.cols.map Prod.fst)
    let st := { st with
      exog_columns := .set exogCols,
      nr_exog := .set (match exog with
        | some e => e.cols.length * (cfg.lags_exog.getD []).length
        | none => 0) }
    match series.cols with
    | [] => (st, some (.pyError .indexError))  -- `series.columns()[0]` on no columns
    | c0 :: _ =>
      -- lines 132-136: attempt to rename the target column on collision
      let target0 := c0.1
      let collision : Bool := match exogCols with
        | some cs => cs.contains target0
        | none => false
      let series1 :=
        if collision then pdRename [(.colName target0, .colName "Target")] series
        else series
      let target1 := match series1.cols with
        | [] => ""
        | c :: _ => c.1
      let st := { st with target_column := .set target1 }
      -- lines 139-140: training table and label vector
      match createTrainingDataDF cfg.lags cfg.lags_exog series1 exog with
      | .error e => (st, some e)
      | .ok table =>
        let targetVals := match series1.cols with
          | [] => []
          | c :: _ => c.2
        -- `training_y = series[training_x.time_index()]`: the label at each
        -- retained row position (always in range for retained rows)
        let labels := table.map (fun r => targetVals.getD r.1 0)
        -- lines 143-147: estimator training; its error propagates unchanged
        match estFit (table.map Prod.snd) labels with
        | .error msg => (st, some (.exception msg))
        | .ok _ =>
          -- lines 148-153: the prediction seed window, `series.stack(exog)`
          -- column-stacked row by row, then the last `max_lag` rows
          let exogColVals := match exog with
            | some e => e.cols.map Prod.snd
            | none => []
          let stacked := (List.range targetVals.length).map (fun i =>
            (targetVals.getD i 0, exogColVals.map (fun c => c.getD i 0)))
          let seed :=
            if cfg.max_lag = 0 then []
            else stacked.drop (stacked.length - cfg.max_lag)
          ({ st with prediction_data := .set seed, fit_called := true }, none)

/-! ### The autoregressive prediction loop (`RegressionModel.predict`) -/

/-- The value the wrapped estimator's `predict` returns on a feature
table: a 1-d numpy array (one number per row), a 2-d numpy array (one
row per input row), or a plain Python scalar. -/
inductive PredReturn where
  | arr1 (v : List Int)
  | arr2 (v : List (List Int))
  | scalar (v : Int)
  deriving DecidableEq

/-- Line 274: `forecast = forecast[0] if isinstance(forecast[0],
np.ndarray) else forecast`.  Subscripting a plain scalar raises
`TypeError`, subscripting an empty array raises `IndexError`, a 2-d
array is unwrapped to its first row, and a 1-d array is kept as is. -/
def normalizeForecast : PredReturn → Except DartsError (List Int)
  | .scalar _ => .error (.pyError .typeError)
  | .arr1 [] => .error (.pyError .indexError)
  | .arr1 l => .ok l
  | .arr2 [] => .error (.pyError .indexError)
  | .arr2 (r :: _) => .ok r

/-- The Fitted State as `predict` reads it, after a successful `fit`:
the configured lag sets and derived `max_lag`, the width of the
exogenous block of the rolling window (`0` when `exog_columns` is
`None`; `fit` makes `exog_columns` `None` exactly when `lags_exog` is
`None`), the stored seed window `self.prediction_data` as (target value,
exogenous values) rows, and the training series' end timestamp and
frequency. -/
structure Fitted where
  lags : Option (List Int)
  lags_exog : Option (List Int)
  max_lag : Nat
  exogWidth : Nat
  seed : List (Int × List Int)
  trainEnd : Nat
  freq : Nat
  deriving DecidableEq

/-- The `exog` argument of `predict`: a start timestamp and one row of
exogenous values per forecast step (the frequency is the training
frequency). -/
structure ExogFrame where
  start : Nat
  rows : List (List Int)
  deriving DecidableEq

/-- A forecast series: its first timestamp and its values. -/
structure Forecast where
  start : Nat
  values : List Int
  deriving DecidableEq

/-- The message of the `raise_if_not` on lines 247-250, containing both
the given and the expected start timestamp. -/
def exogStartMsg (given needed : Nat) : String :=
  "`exog` first date must be equal to self.training_series.end_time()+1*freq. Given: "
    ++ toString given ++ ". Needed: " ++ toString needed ++ "."

/-- The message of the up-front exogenous length check, containing both
the given length and the required horizon. -/
def exogLengthMsg (given needed : Nat) : String :=
  "`exog` must contain at least as many time steps as the forecast horizon n. Given length: "
    ++ toString given ++ ". Needed: " ++ toString needed ++ "."

/-- Modelled from the spec: the base-class entry `super().predict(n,
exog)` on line 238 (`ExtendedForecastingModel.predict` in
`forecasting_model.py`, which is not among the sources).  Per the spec,
when exogenous lags were configured an exogenous series is required and
must cover at least `n` steps; a shorter series is reported as a
`ConfigurationError` up front, before the prediction loop. -/
def superPredict (m : Fitted) (n : Nat) (exog : Option ExogFrame) :
    Except DartsError Unit :=
  match exog with
  | none =>
    if m.lags_exog.isSome then
      .error (.configurationError
        "`exog` must be provided when `lags_exog` was set in the constructor.")
    else .ok ()
  | some e =>
    if m.lags_exog.isSome ∧ e.rows.length < n then
      .error (.configurationError (exogLengthMsg e.rows.length n))
    else .ok ()

/-- Line 242: `np.zeros(shape=(1, prediction_data.width))`, the all-zero
placeholder row. -/
def dummyRow (m : Fitted) : Int × List Int := (0, List.replicate m.exogWidth 0)

/-- Lines 240-243: when `max_lag != 0` the loop starts from a copy of
the stored seed window with one placeholder row appended; when
`max_lag == 0` the loop variable is first assigned inside the lag-0
branch of the loop body (`max_lag == 0` forces `0 ∈ lags_exog`, so that
branch is always taken). -/
def initWindow (m : Fitted) : List (Int × List Int) :=
  if m.max_lag ≠ 0 then m.seed ++ [dummyRow m] else []

/-- Lines 257-267: when exogenous lag 0 is configured, this step's known
exogenous values are written into the placeholder row (target cell
0-filled); with `max_lag == 0` a fresh single-row frame is built
instead.  `exog.iloc[i]` on a missing row is an uncontrolled
`IndexError`, and on `None` an `AttributeError`. -/
def prepWindow (m : Fitted) (exog : Option (List (List Int))) (i : Nat)
    (w : List (Int × List Int)) : Except DartsError (List (Int × List Int)) :=
  match m.lags_exog with
  | some E =>
    if 0 ∈ E then
      match exog with
      | none => .error (.pyError .attributeError)
      | some rows =>
        match rows[i]? with
        | none => .error (.pyError .indexError)
        | some ex =>
          if m.max_lag = 0 then .ok [(0, ex)]
          else .ok (w.dropLast ++ [(0, ex)])
    else .ok w
  | none => .ok w

/-- The exogenous columns of the rolling window (line 271,
`prediction_data[self.exog_columns]`).  Every window row carries exactly
`width` exogenous cells, so the `getD` default never fires. -/
def windowExogCols (width : Nat) (w : List (Int × List Int)) : List (List Int) :=
  (List.range width).map (fun j => w.map (fun r => r.2.getD j 0))

/-- Lines 270-272: select the target column and the exogenous columns of
the rolling window and run them through `_create_training_data`;
`pd_dataframe()` keeps the feature cells.  On a window of `max_lag + 1`
rows this yields a single feature row. -/
def forecastingRows (m : Fitted) (w : List (Int × List Int)) : List (List Int) :=
  (create_training_data m.lags m.lags_exog (w.map Prod.fst)
    (windowExogCols m.exogWidth w)).map Prod.snd

/-- Lines 276-281: when `max_lag > 0`, drop the placeholder row, append
the row holding the new forecast (and this step's exogenous values when
exogenous columns exist — `[forecast[0], *exog.iloc[i, :].values]` —
otherwise the whole 1-d forecast array `[forecast]`, whose width must
then be 1), append a fresh placeholder, and drop the oldest row. -/
def updateWindow (m : Fitted) (exog : Option (List (List Int))) (i : Nat)
    (fc : List Int) (w : List (Int × List Int)) :
    Except DartsError (List (Int × List Int)) :=
  if 0 < m.max_lag then
    let rowE : Except DartsError (Int × List Int) :=
      if m.lags_exog.isSome then
        match exog with
        | none => .error (.pyError .attributeError)
        | some rows =>
          match rows[i]? with
          | none => .error (.pyError .indexError)
          | some ex =>
            match fc.head? with
            | none => .error (.pyError .indexError)
            | some v => .ok (v, ex)
      else
        match fc with
        | [v] => .ok (v, [])
        | _ => .error (.pyError .valueError)
    rowE.map (fun row => ((w.dropLast ++ [row]) ++ [dummyRow m]).drop 1)
  else .ok w

/-- One iteration of the loop body (lines 255-284): lag-0 exogenous
preparation, one estimator invocation on the single-row feature table,
scalar extraction, window update, and the recording of `forecast[0]` as
this step's output. -/
def predStep (m : Fitted) (est : List (List Int) → PredReturn)
    (exog : Option (List (List Int))) (i : Nat) (w : List (Int × List Int)) :
    Except DartsError (Int × List (Int × List Int)) := do
  let w1 ← prepWindow m exog i w
  let fc ← normalizeForecast (est (forecastingRows m w1))
  let w2 ← updateWindow m exog i fc w1
  match fc.head? with
  | none => .error (.pyError .indexError)
  | some v => .ok (v, w2)

/-- The `for i in range(n)` loop (lines 254-284), iterating `predStep`
from step index `i`; besides the recorded forecasts it returns the
number of executed steps (each of which invokes the estimator exactly
once). -/
def runSteps (m : Fitted) (est : List (List Int) → PredReturn)
    (exog : Option (List (List Int))) :
    Nat → Nat → List (Int × List Int) → Except DartsError (List Int × Nat)
  | 0, _, _ => .ok ([], 0)
  | k + 1, i, w => do
    let (v, w') ← predStep m est exog i w
    let (vs, c) ← runSteps m est exog k (i + 1) w'
    .ok (v :: vs, c + 1)

/-- Modelled from the spec: `self._build_forecast_series(forecasts)` on
line 285 lives in the base class (not among the sources); per the spec
it assembles the recorded values into a time series beginning one
frequency step after the training series' end. -/
def build_forecast_series (m : Fitted) (vals : List Int) : Forecast :=
  { start := m.trainEnd + m.freq, values := vals }

/-- Lean image of `RegressionModel.predict` (lines 219-285): the
base-class entry, the rolling-window initialisation, the exogenous
start-date check of lines 245-250, the prediction loop, and the final
series assembly.  The returned `Nat` counts the executed loop steps
(estimator invocations). -/
def predict (m : Fitted) (est : List (List Int) → PredReturn) (n : Nat)
    (exog : Option ExogFrame) : Except DartsError (Forecast × Nat) := do
  superPredict m n exog
  let w0 := initWindow m
  match exog with
  | some e =>
    if e.start ≠ m.trainEnd + m.freq then
      throw (.configurationError (exogStartMsg e.start (m.trainEnd + m.freq)))
    else pure ()
  | none => pure ()
  let (vs, c) ← runSteps m est (exog.map ExogFrame.rows) n 0 w0
  pure (build_forecast_series m vs, c)

/-! ### Concrete instances used as evaluation inputs -/

/-- A concrete fitted model: `lags = [1]`, no exogenous variables,
trained on a series ending at time 9 with frequency 1, seed value 5. -/
def mAuto : Fitted :=
  { lags := some [1], lags_exog := none, max_lag := 1, exogWidth := 0,
    seed := [(5, [])], trainEnd := 9, freq := 1 }

/-- A concrete fitted model with one exogenous column and
`lags = lags_exog = [1]`. -/
def mExog : Fitted :=
  { lags := some [1], lags_exog := some [1], max_lag := 1, exogWidth := 1,
    seed := [(5, [7])], trainEnd := 9, freq := 1 }

/-- An estimator whose `predict` returns a plain Python scalar. -/
def estScalar : List (List Int) → PredReturn := fun _ => .scalar 7

/-- An estimator whose `predict` returns a 1-d length-1 array. -/
def estArr1 : List (List Int) → PredReturn := fun _ => .arr1 [3]

/-- A three-row univariate series with column name `y`. -/
def seriesY : FitSeries :=
  { index := [.timestamp 0, .timestamp 1, .timestamp 2],
    cols := [("y", [1, 2, 3])] }

/-- A three-row univariate series with column name `A`. -/
def seriesA : FitSeries :=
  { index := [.timestamp 0, .timestamp 1, .timestamp 2],
    cols := [("A", [1, 2, 3])] }

/-- A three-row exogenous series whose single column is also named `A`. -/
def exogA : FitSeries :=
  { index := [.timestamp 0, .timestamp 1, .timestamp 2],
    cols := [("A", [4, 5, 6])] }

/-- An estimator whose training always fails. -/
def failEst : List (List Int) → List Int → Except String Unit :=
  fun _ _ => .error "estimator training failed"

/-- An estimator whose training always succeeds. -/
def okEst : List (List Int) → List Int → Except String Unit :=
  fun _ _ => .ok ()

/-- The fit configuration `lags=[1]`, no exogenous lags. -/
def cfgAuto : FitConfig := { lags := some [1], lags_exog := none, max_lag := 1 }

/-- The fit configuration `lags=[1]`, `lags_exog=[1]`. -/
def cfgExog : FitConfig :=
  { lags := some [1], lags_exog := some [1], max_lag := 1 }

/-! ### Helper lemmas -/

theorem mem_intRange1 (k x : Int) : x ∈ intRange1 k ↔ 1 ≤ x ∧ x ≤ k := by
  unfold intRange1
  rw [List.mem_map]
  constructor
  · rintro ⟨i, hi, rfl⟩
    rw [List.mem_range] at hi
    simp only [Int.ofNat_eq_coe]
    omega
  · intro hx
    refine ⟨(x - 1).toNat, ?_, ?_⟩
    · rw [List.mem_range]; omega
    · simp only [Int.ofNat_eq_coe]; omega

theorem intRange1_ne_nil (k : Int) (hk : 0 < k) : intRange1 k ≠ [] := by
  unfold intRange1
  intro h
  rw [List.map_eq_nil_iff, List.range_eq_nil] at h
  omega

/-! ### Claim theorems: construction -/

/-- C3: the claim says constructing with valid lag parameters and
`model=None` succeeds and wraps the default
`LinearRegression(fit_intercept=False)`.  The code contradicts its own
docstring (line 55): the `callable(getattr(model, "fit", None))` check
on lines 70-71 runs before the `model is None` default on lines 75-76,
and `getattr(None, "fit", None)` is not callable, so construction with
`model=None` raises instead. -/
theorem init_model_none_raises :
    regressionModelInit (.int 3) .pyNone none
      = .error (.exception "Provided model object must have a fit() method") := by
  rfl

/-- C10: for every positive integer `k`, constructing with `lags = k`
yields the target lag set `{1, …, k}` (the list `intRange1 k`, whose
members are exactly the integers from 1 to `k`); `lags_exog = True`
yields an exogenous lag set equal to the target lag set; and
`lags_exog = False` yields the exogenous lag set `{0}`. -/
theorem init_lag_sets (k : Int) (hk : 0 < k) (est : Estim)
    (hf : est.fitCallable = true) (hp : est.predictCallable = true) :
    (∃ cfg, regressionModelInit (.int k) .pyNone (some est) = .ok cfg ∧
        cfg.lags = some (intRange1 k))
    ∧ (∃ cfg, regressionModelInit (.int k) .pyTrue (some est) = .ok cfg ∧
        cfg.lags = some (intRange1 k) ∧ cfg.lags_exog = cfg.lags)
    ∧ (∃ cfg, regressionModelInit (.int k) .pyFalse (some est) = .ok cfg ∧
        cfg.lags_exog = some [0])
    ∧ (∀ x : Int, x ∈ intRange1 k ↔ 1 ≤ x ∧ x ≤ k) := by
  obtain ⟨x, xs, hxxs⟩ := List.exists_cons_of_ne_nil (intRange1_ne_nil k hk)
  refine ⟨?_, ?_, ?_, fun x => mem_intRange1 k x⟩
  · refine ⟨⟨some (intRange1 k), none, est, xs.foldl max x, false⟩, ?_, rfl⟩
    simp [regressionModelInit, hf, hp, hk, hxxs, pyMax, bind, Except.bind,
      pure, Except.pure]
  · refine ⟨⟨some (intRange1 k), some (intRange1 k), est,
      max (xs.foldl max x) (xs.foldl max x), false⟩, ?_, rfl, rfl⟩
    simp [regressionModelInit, hf, hp, hk, hxxs, pyMax, bind, Except.bind,
      pure, Except.pure]
  · refine ⟨⟨some (intRange1 k), some [0], est,
      max (xs.foldl max x) 0, false⟩, ?_, rfl⟩
    simp [regressionModelInit, hf, hp, hk, hxxs, pyMax, bind, Except.bind,
      pure, Except.pure]

/-- Witness for `init_lag_sets` at `k = 2` with a valid custom
estimator. -/
theorem init_lag_sets_witness :
    (0 : Int) < 2
    ∧ (∃ cfg, regressionModelInit (.int 2) .pyNone (some (.custom true true))
          = .ok cfg ∧ cfg.lags = some (intRange1 2)) :=
  ⟨by decide,
    (init_lag_sets 2 (by decide) (.custom true true) (by decide) (by decide)).1⟩

/-! ### Claim theorems: fit -/

/-- C2 counterexample: the claim says a failed `fit` leaves the model's
Fitted State exactly as it was before the call.  On a fresh model with
`lags=[1]`, no exogenous variables and an estimator whose training
raises, the failed `fit` returns an error AND the attribute record
differs from the fresh one: `exog_columns`, `nr_exog` and
`target_column` were already assigned (lines 129-136) before the
estimator call on line 143 raised. -/
theorem fit_failed_state_changed :
    (fitModel cfgAuto freshAttrs seriesY none failEst).2.isSome = true
    ∧ (fitModel cfgAuto freshAttrs seriesY none failEst).1 ≠ freshAttrs := by
  decide

/-- C2 amended: a failed `fit` never commits — `_fit_called` and
`prediction_data` are assigned only after every fallible step has
succeeded (lines 148-155), so on any failure they are unchanged and a
never-fitted model remains not fitted; however the staging attributes
`exog_columns`, `nr_exog` and `target_column` may already have been
reassigned (lines 129-136). -/
theorem fit_failure_no_commit (cfg : FitConfig) (st : ModelAttrs)
    (series : FitSeries) (exog : Option FitSeries)
    (estFit : List (List Int) → List Int → Except String Unit)
    (hfail : (fitModel cfg st series exog estFit).2.isSome = true) :
    (fitModel cfg st series exog estFit).1.fit_called = st.fit_called
    ∧ (fitModel cfg st series exog estFit).1.prediction_data
        = st.prediction_data := by
  simp only [fitModel] at hfail ⊢
  revert hfail
  split
  · exact fun _ => ⟨rfl, rfl⟩
  · split
    · exact fun _ => ⟨rfl, rfl⟩
    · split
      · exact fun _ => ⟨rfl, rfl⟩
      · split
        · exact fun _ => ⟨rfl, rfl⟩
        · split
          · exact fun _ => ⟨rfl, rfl⟩
          · intro h
            simp at h

/-- Witness for `fit_failure_no_commit`: the concrete failed fit of the
counterexample leaves `_fit_called` false and `prediction_data`
unassigned. -/
theorem fit_failure_no_commit_witness :
    (fitModel cfgAuto freshAttrs seriesY none failEst).1.fit_called = false
    ∧ (fitModel cfgAuto freshAttrs seriesY none failEst).1.prediction_data
        = .unset :=
  fit_failure_no_commit cfgAuto freshAttrs seriesY none failEst (by decide)

/-- C4: the claim says that when the target's column name equals an
exogenous column name, `fit` renames the target internally to the
sentinel `"Target"` so that target and exogenous columns are distinct.
The code is a slip: `df.rename({target_column: "Target"})` on line 135
passes the mapper positionally, which pandas applies to the row-index
labels (axis 0), not to the columns, so the rename is a no-op on the
columns and `self.target_column` remains the colliding original name —
here fit succeeds with `target_column = "A"` still equal to the
exogenous column name `"A"`. -/
theorem fit_rename_is_noop :
    pdRename [(.colName "A", .colName "Target")] seriesA = seriesA
    ∧ (fitModel cfgExog freshAttrs seriesA (some exogA) okEst).2 = none
    ∧ (fitModel cfgExog freshAttrs seriesA (some exogA) okEst).1.target_column
        = .set "A"
    ∧ (fitModel cfgExog freshAttrs seriesA (some exogA) okEst).1.exog_columns
        = .set (some ["A"]) := by
  decide

/-! ### Claim theorems: predict -/

/-- C1: with exogenous lags configured, `predict(n, exog)` on an
exogenous series shorter than `n` returns the up-front
`ConfigurationError` of the length check — for EVERY estimator, i.e.
before the prediction loop runs, never an uncontrolled indexing error
mid-loop.  The check itself lives in the base-class entry
`super().predict` (line 238), modelled from the spec in
`superPredict`. -/
theorem predict_short_exog_up_front_error (m : Fitted)
    (est : List (List Int) → PredReturn) (n : Nat) (e : ExogFrame)
    (hlags : m.lags_exog.isSome = true) (hshort : e.rows.length < n) :
    predict m est n (some e)
      = .error (.configurationError (exogLengthMsg e.rows.length n)) := by
  simp [predict, superPredict, hlags, hshort, bind, Except.bind]

/-- Witness for `predict_short_exog_up_front_error`: one exogenous row
given, two steps requested. -/
theorem predict_short_exog_up_front_error_witness :
    predict mExog estScalar 2 (some { start := 10, rows := [[1]] })
      = .error (.configurationError (exogLengthMsg 1 2)) :=
  predict_short_exog_up_front_error mExog estScalar 2
    { start := 10, rows := [[1]] } (by decide) (by decide)

/-- C9: `predict` with an exogenous series long enough but whose start
timestamp differs from training end + one frequency step returns the
`ConfigurationError` of lines 245-250, whose message (second conjunct)
spells out both the given and the expected start timestamp. -/
theorem predict_misaligned_exog_error (m : Fitted)
    (est : List (List Int) → PredReturn) (n : Nat) (e : ExogFrame)
    (hlen : n ≤ e.rows.length) (hs : e.start ≠ m.trainEnd + m.freq) :
    predict m est n (some e)
      = .error (.configurationError (exogStartMsg e.start (m.trainEnd + m.freq)))
    ∧ exogStartMsg e.start (m.trainEnd + m.freq)
      = "`exog` first date must be equal to self.training_series.end_time()+1*freq. Given: "
          ++ toString e.start ++ ". Needed: " ++ toString (m.trainEnd + m.freq)
          ++ "." := by
  refine ⟨?_, rfl⟩
  have hnot : ¬ e.rows.length < n := Nat.not_lt.mpr hlen
  simp [predict, superPredict, hnot, hs, bind, Except.bind, throw, throwThe,
    MonadExceptOf.throw]

/-- Witness for `predict_misaligned_exog_error`: exogenous series
starting at 12 where 10 was required. -/
theorem predict_misaligned_exog_error_witness :
    predict mExog estScalar 1 (some { start := 12, rows := [[1]] })
      = .error (.configurationError (exogStartMsg 12 10)) :=
  (predict_misaligned_exog_error mExog estScalar 1
    { start := 12, rows := [[1]] } (by decide) (by decide)).1

theorem runSteps_ok (m : Fitted) (est : List (List Int) → PredReturn)
    (exog : Option (List (List Int))) :
    ∀ (k i : Nat) (w : List (Int × List Int)) (vs : List Int) (c : Nat),
      runSteps m est exog k i w = .ok (vs, c) → vs.length = k ∧ c = k := by
  intro k
  induction k with
  | zero =>
    intro i w vs c h
    simp only [runSteps, Except.ok.injEq] at h
    obtain ⟨h1, h2⟩ := Prod.mk.injEq .. ▸ h
    simp [← h1, ← h2]
  | succ k ih =>
    intro i w vs c h
    simp only [runSteps, bind, Except.bind] at h
    cases hstep : predStep m est exog i w with
    | error e => rw [hstep] at h; exact absurd h (by simp)
    | ok p =>
      rw [hstep] at h
      dsimp only at h
      cases hrest : runSteps m est exog k (i + 1) p.2 with
      | error e => rw [hrest] at h; exact absurd h (by simp)
      | ok q =>
        rw [hrest] at h
        simp only [Except.ok.injEq] at h
        obtain ⟨hvs, hc⟩ := Prod.mk.injEq .. ▸ h
        obtain ⟨h1, h2⟩ := ih (i + 1) p.2 q.1 q.2 (by rw [hrest])
        subst hvs hc
        simp [h1, h2]

/-- C8: whenever `predict(n, exog)` succeeds, the forecast series has
exactly `n` values, begins one frequency step after the training
series' end, and the loop invoked the estimator exactly `n` times; in
particular (second conjunct) `n = 0` on a model without exogenous lags
always succeeds with the empty series, the correct future start
timestamp and zero estimator invocations.  The series assembly
(`_build_forecast_series`) is modelled from the spec. -/
theorem predict_series_shape (m : Fitted)
    (est : List (List Int) → PredReturn) :
    (∀ (n : Nat) (exog : Option ExogFrame) (fc : Forecast) (c : Nat),
        predict m est n exog = .ok (fc, c) →
          fc.start = m.trainEnd + m.freq ∧ fc.values.length = n ∧ c = n)
    ∧ (m.lags_exog = none →
        predict m est 0 none
          = .ok ({ start := m.trainEnd + m.freq, values := [] }, 0)) := by
  constructor
  · intro n exog fc c h
    simp only [predict, bind, Except.bind] at h
    cases hsp : superPredict m n exog with
    | error e => rw [hsp] at h; exact absurd h (by simp)
    | ok u =>
      rw [hsp] at h
      dsimp only at h
      cases exog with
      | none =>
        simp only [Option.map, pure, Except.pure] at h
        cases hrs : runSteps m est none n 0 (initWindow m) with
        | error e => rw [hrs] at h; exact absurd h (by simp)
        | ok q =>
          rw [hrs] at h
          dsimp only at h
          simp only [Except.ok.injEq] at h
          obtain ⟨hfc, hc⟩ := Prod.mk.injEq .. ▸ h
          obtain ⟨h1, h2⟩ := runSteps_ok m est none n 0 (initWindow m) q.1 q.2
            (by rw [hrs])
          subst hfc hc
          exact ⟨rfl, h1, h2⟩
      | some e =>
        dsimp only at h
        by_cases hs : e.start ≠ m.trainEnd + m.freq
        · rw [if_pos hs] at h
          exact Except.noConfusion h
        · rw [if_neg hs] at h
          simp only [Option.map, pure, Except.pure, bind, Except.bind] at h
          cases hrs : runSteps m est (some e.rows) n 0 (initWindow m) with
          | error er => rw [hrs] at h; exact absurd h (by simp)
          | ok q =>
            rw [hrs] at h
            dsimp only at h
            simp only [Except.ok.injEq] at h
            obtain ⟨hfc, hc⟩ := Prod.mk.injEq .. ▸ h
            obtain ⟨h1, h2⟩ := runSteps_ok m est (some e.rows) n 0
              (initWindow m) q.1 q.2 (by rw [hrs])
            subst hfc hc
            exact ⟨rfl, h1, h2⟩
  · intro hnone
    simp [predict, superPredict, hnone, runSteps, bind, Except.bind, pure,
      Except.pure, build_forecast_series]

/-- Witness for `predict_series_shape`: the `n = 0` case on the concrete
autoregressive model. -/
theorem predict_series_shape_witness :
    predict mAuto estScalar 0 none
      = .ok ({ start := 10, values := [] }, 0) :=
  (predict_series_shape mAuto estScalar).2 rfl

theorem prepWindow_length (m : Fitted) (exog : Option (List (List Int)))
    (i : Nat) (w w1 : List (Int × List Int)) (hml : 0 < m.max_lag)
    (hw : w ≠ []) (h : prepWindow m exog i w = .ok w1) :
    w1.length = w.length := by
  cases hE : m.lags_exog with
  | none =>
    unfold prepWindow at h
    rw [hE] at h
    simp only [Except.ok.injEq] at h
    subst h
    rfl
  | some E =>
    unfold prepWindow at h
    rw [hE] at h
    dsimp only at h
    by_cases h0 : (0 : Int) ∈ E
    · rw [if_pos h0] at h
      cases exog with
      | none => exact absurd h (by simp)
      | some rows =>
        dsimp only at h
        cases hri : rows[i]? with
        | none => rw [hri] at h; exact absurd h (by simp)
        | some ex =>
          rw [hri] at h
          dsimp only at h
          rw [if_neg (Nat.pos_iff_ne_zero.mp hml)] at h
          simp only [Except.ok.injEq] at h
          subst h
          have hlen : 0 < w.length := List.length_pos.mpr hw
          simp only [List.length_append, List.length_dropLast,
            List.length_cons, List.length_nil]
          omega
    · rw [if_neg h0] at h
      simp only [Except.ok.injEq] at h
      subst h
      rfl

theorem updateWindow_length (m : Fitted) (exog : Option (List (List Int)))
    (i : Nat) (fc : List Int) (w w2 : List (Int × List Int))
    (hml : 0 < m.max_lag) (hw : w ≠ [])
    (h : updateWindow m exog i fc w = .ok w2) : w2.length = w.length := by
  unfold updateWindow at h
  rw [if_pos hml] at h
  simp only [Except.map] at h
  split at h
  · exact absurd h (by simp)
  · simp only [Except.ok.injEq] at h
    subst h
    have hlen : 0 < w.length := List.length_pos.mpr hw
    simp only [List.length_drop, List.length_append, List.length_dropLast,
      List.length_cons, List.length_nil]
    omega

/-- C7: with `max_lag > 0`, the loop's initial rolling window (seed of
`max_lag` rows plus placeholder) has exactly `max_lag + 1` rows, and one
loop step on a window of `max_lag + 1` rows (replace the placeholder,
append a fresh placeholder, drop the oldest row) hands the next step a
window of exactly `max_lag + 1` rows again — so the invariant holds at
the end of every step. -/
theorem predict_window_size_invariant (m : Fitted)
    (est : List (List Int) → PredReturn) (exog : Option (List (List Int)))
    (i : Nat) (w w' : List (Int × List Int)) (v : Int)
    (hml : 0 < m.max_lag) (hseed : m.seed.length = m.max_lag)
    (hw : w.length = m.max_lag + 1)
    (hstep : predStep m est exog i w = .ok (v, w')) :
    (initWindow m).length = m.max_lag + 1
    ∧ w'.length = m.max_lag + 1 := by
  have hwne : w ≠ [] := by
    intro hnil
    rw [hnil] at hw
    simp at hw
  constructor
  · simp [initWindow, Nat.pos_iff_ne_zero.mp hml, hseed]
  · simp only [predStep, bind, Except.bind] at hstep
    cases hprep : prepWindow m exog i w with
    | error e => rw [hprep] at hstep; exact absurd hstep (by simp)
    | ok w1 =>
      rw [hprep] at hstep
      dsimp only at hstep
      have hw1 : w1.length = m.max_lag + 1 :=
        (prepWindow_length m exog i w w1 hml hwne hprep).trans hw
      have hw1ne : w1 ≠ [] := by
        intro hnil
        rw [hnil] at hw1
        simp at hw1
      cases hfc : normalizeForecast (est (forecastingRows m w1)) with
      | error e => rw [hfc] at hstep; exact absurd hstep (by simp)
      | ok fc =>
        rw [hfc] at hstep
        dsimp only at hstep
        cases hupd : updateWindow m exog i fc w1 with
        | error e => rw [hupd] at hstep; exact absurd hstep (by simp)
        | ok w2 =>
          rw [hupd] at hstep
          dsimp only at hstep
          cases hhead : fc.head? with
          | none => rw [hhead] at hstep; exact absurd hstep (by simp)
          | some v0 =>
            rw [hhead] at hstep
            simp only [Except.ok.injEq] at hstep
            obtain ⟨hv, hw'⟩ := Prod.mk.injEq .. ▸ hstep
            subst hw'
            exact (updateWindow_length m exog i fc w1 w2 hml hw1ne hupd).trans hw1

/-- Witness for `predict_window_size_invariant`: one concrete loop step
on `mAuto` (window `[(5,[]),(0,[])]`, estimator returning `[3]`) yields
the window `[(3,[]),(0,[])]`, again of size `max_lag + 1 = 2`. -/
theorem predict_window_size_invariant_witness :
    (initWindow mAuto).length = mAuto.max_lag + 1
    ∧ ([((3 : Int), ([] : List Int)), (0, [])] : List (Int × List Int)).length
        = mAuto.max_lag + 1 :=
  predict_window_size_invariant mAuto estArr1 none 0 (initWindow mAuto)
    [(3, []), (0, [])] 3 (by decide) (by decide) (by decide) (by decide)

/-- C5 counterexample: the claim says scalar extraction succeeds also
when the estimator's `predict` returns a plain scalar.  On the concrete
fitted model `mAuto` with an estimator returning the plain scalar `7`,
one prediction step fails with an uncontrolled `TypeError`: line 274
subscripts the return value (`forecast[0]`) before the `isinstance`
test, and a plain scalar is not subscriptable. -/
theorem predict_scalar_return_not_handled :
    predict mAuto estScalar 1 none = .error (.pyError .typeError) := by
  decide

/-- C5 amended: the value recorded as a step's forecast is the scalar
extracted from the estimator's return on the single-row feature table —
the extraction succeeds when the estimator returns a 1-d length-1 array
per row (`forecast[0]`) or a 2-d one-row array (unwrapped by line 274,
then `forecast[0]`), but a plain scalar return is not handled: the
subscript on line 274 raises `TypeError`. -/
theorem step_forecast_extraction (m : Fitted)
    (est : List (List Int) → PredReturn) (exog : Option (List (List Int)))
    (i : Nat) (w w1 : List (Int × List Int)) (v : Int)
    (hprep : prepWindow m exog i w = .ok w1)
    (hexog : m.lags_exog.isSome = true →
      ∃ rows, exog = some rows ∧ i < rows.length) :
    (est (forecastingRows m w1) = .arr1 [v] →
        (predStep m est exog i w).map Prod.fst = .ok v)
    ∧ (est (forecastingRows m w1) = .arr2 [[v]] →
        (predStep m est exog i w).map Prod.fst = .ok v)
    ∧ (∀ x : Int, est (forecastingRows m w1) = .scalar x →
        predStep m est exog i w = .error (.pyError .typeError)) := by
  obtain ⟨w2, hupd⟩ : ∃ w2, updateWindow m exog i [v] w1 = .ok w2 := by
    unfold updateWindow
    by_cases hml : 0 < m.max_lag
    · rw [if_pos hml]
      by_cases hE : m.lags_exog.isSome = true
      · obtain ⟨rows, hrw2, hlt⟩ := hexog hE
        subst hrw2
        simp only [hE, if_true]
        rw [List.getElem?_eq_getElem hlt]
        exact ⟨_, rfl⟩
      · simp only [hE, if_false]
        exact ⟨_, rfl⟩
    · rw [if_neg hml]
      exact ⟨_, rfl⟩
  refine ⟨?_, ?_, ?_⟩
  · intro hest
    simp only [predStep, bind, Except.bind, hprep, hest]
    have hnorm : normalizeForecast (.arr1 [v]) = .ok [v] := rfl
    rw [hnorm]
    dsimp only
    rw [hupd]
    rfl
  · intro hest
    simp only [predStep, bind, Except.bind, hprep, hest]
    have hnorm : normalizeForecast (.arr2 [[v]]) = .ok [v] := rfl
    rw [hnorm]
    dsimp only
    rw [hupd]
    rfl
  · intro x hest
    simp only [predStep, bind, Except.bind, hprep, hest]
    rfl

/-- Witness for `step_forecast_extraction`: a concrete step on `mAuto`
with an estimator returning the 1-d array `[3]` records the forecast
`3`. -/
theorem step_forecast_extraction_witness :
    (predStep mAuto estArr1 none 0 (initWindow mAuto)).map Prod.fst
      = .ok 3 :=
  (step_forecast_extraction mAuto estArr1 none 0 (initWindow mAuto)
    (initWindow mAuto) 3 (by decide)
    (fun h => absurd h (by decide))).1 (by decide)

/-! ### Claim theorems: the Lag-Feature Builder -/

theorem seqOptions_isSome {α : Type} (os : List (Option α)) :
    (seqOptions os).isSome = os.all Option.isSome := by
  induction os with
  | nil => rfl
  | cons o rest ih =>
    cases o with
    | none => rfl
    | some x =>
      simp only [seqOptions, List.all_cons, Option.isSome_some, Bool.true_and,
        ← ih]
      cases seqOptions rest <;> rfl

theorem lookup_keyed_range' {β : Type} (f : Nat → Option β) :
    ∀ (n s j : Nat),
      (((List.range' s n).filterMap
          (fun i => (f i).map (fun b => (i, b)))).lookup j)
        = if s ≤ j ∧ j < s + n then f j else none := by
  intro n
  induction n with
  | zero =>
    intro s j
    rw [if_neg (by omega)]
    rfl
  | succ n ih =>
    intro s j
    rw [List.range'_succ]
    cases hfs : f s with
    | none =>
      simp only [List.filterMap_cons, hfs, Option.map_none']
      rw [ih (s + 1) j]
      by_cases hj : j = s
      · subst hj
        rw [if_neg (by omega), if_pos (by omega), hfs]
      · by_cases hc : s ≤ j ∧ j < s + (n + 1)
        · rw [if_pos (by omega), if_pos hc]
        · rw [if_neg (by omega), if_neg hc]
    | some b =>
      simp only [List.filterMap_cons, hfs, Option.map_some']
      by_cases hj : j = s
      · subst hj
        have hbeq : (j == j) = true := beq_self_eq_true j
        simp only [List.lookup, hbeq]
        rw [if_pos (by omega), hfs]
      · have hbeq : (j == s) = false := beq_eq_false_iff_ne.mpr hj
        simp only [List.lookup, hbeq]
        rw [ih (s + 1) j]
        by_cases hc : s ≤ j ∧ j < s + (n + 1)
        · rw [if_pos (by omega), if_pos hc]
        · rw [if_neg (by omega), if_neg hc]

theorem lookup_keyed_range {β : Type} (f : Nat → Option β) (n j : Nat) :
    ((List.range n).filterMap (fun i => (f i).map (fun b => (i, b)))).lookup j
      = if j < n then f j else none := by
  rw [List.range_eq_range', lookup_keyed_range' f n 0 j]
  by_cases h : j < n
  · rw [if_pos (by omega), if_pos h]
  · rw [if_neg (by omega), if_neg h]

theorem map_fst_keyed {β : Type} (f : Nat → Option β) (l : List Nat) :
    ((l.filterMap (fun i => (f i).map (fun b => (i, b)))).map Prod.fst)
      = l.filter (fun i => (f i).isSome) := by
  induction l with
  | nil => rfl
  | cons a t ih =>
    rw [List.filterMap_cons, List.filter_cons]
    cases hfa : f a with
    | none => simpa [hfa] using ih
    | some b => simp [hfa, ih]

theorem length_filter_range (n mLag : Nat) :
    ((List.range n).filter (fun i => decide (mLag ≤ i))).length = n - mLag := by
  induction n with
  | zero => simp
  | succ n ih =>
    rw [List.range_succ, List.filter_append, List.length_append, ih]
    by_cases h : mLag ≤ n
    · simp [h]
      omega
    · simp [h]
      omega

theorem listMax_nonneg (l : List Int) : 0 ≤ listMax l := by
  induction l with
  | nil => exact le_refl 0
  | cons x t ih => exact le_trans ih (le_max_right x (listMax t))

theorem le_listMax {l : List Int} {x : Int} (hx : x ∈ l) : x ≤ listMax l := by
  induction l with
  | nil => cases hx
  | cons a t ih =>
    rcases List.mem_cons.mp hx with h | h
    · subst h
      exact le_max_left _ _
    · exact le_trans (ih h) (le_max_right _ _)

theorem listMax_le {l : List Int} {b : Int} (hb : 0 ≤ b)
    (h : ∀ x ∈ l, x ≤ b) : listMax l ≤ b := by
  induction l with
  | nil => exact hb
  | cons a t ih =>
    exact max_le (h a (List.mem_cons_self a t))
      (ih (fun x hx => h x (List.mem_cons_of_mem a hx)))

theorem shiftIdx_isSome (xs : List Int) (lag : Int) (i : Nat) :
    (shiftIdx xs lag i).isSome
      = decide (lag ≤ (i : Int) ∧ (i : Int) - lag < (xs.length : Int)) := by
  unfold shiftIdx
  by_cases h : 0 ≤ (i : Int) - lag ∧ (i : Int) - lag < ((xs.length : Nat) : Int)
  · rw [if_pos h]
    rw [List.getElem?_eq_getElem (show ((i : Int) - lag).toNat < xs.length by omega)]
    exact (decide_eq_true (by omega)).symm
  · rw [if_neg h]
    exact (decide_eq_false (by omega)).symm

theorem create_lagged_data_lookup (xs : List Int) (lags : List Int) (j : Nat) :
    (create_lagged_data xs lags).lookup j
      = if j < xs.length
          then seqOptions (lags.map (fun l => shiftIdx xs l j)) else none := by
  unfold create_lagged_data
  exact lookup_keyed_range _ xs.length j

theorem all_map' {α β : Type} (f : α → β) (l : List α) (p : β → Bool) :
    (l.map f).all p = l.all (fun a => p (f a)) := by
  induction l with
  | nil => rfl
  | cons a t ih => simp [List.all_cons, ih]

theorem all_congr' {α : Type} {p q : α → Bool} :
    ∀ xs : List α, (∀ a ∈ xs, p a = q a) → xs.all p = xs.all q
  | [], _ => rfl
  | x :: rest, h => by
    have hx := h x (List.mem_cons_self x rest)
    have hr := all_congr' rest (fun y hy => h y (List.mem_cons_of_mem x hy))
    simp only [List.all_cons, hx, hr]

/-- C6: on gap-free inputs (the target and every exogenous column share
the same positional index), the Lag-Feature Builder retains exactly the
rows for which every requested shifted value is defined — silently
dropping the rest — and its row count is the input row count minus the
maximum of all lags used. -/
theorem training_rows_windowing (lags lagsE : Option (List Int))
    (target : List Int) (exogs : List (List Int))
    (hcfg : lags.isSome ∨ lagsE.isSome)
    (hex : lagsE.isSome → exogs ≠ [])
    (hlen : ∀ c ∈ exogs, c.length = target.length)
    (hpos : ∀ l ∈ usedLags lags lagsE, 0 ≤ l) :
    (create_training_data lags lagsE target exogs).map Prod.fst
      = (List.range target.length).filter
          (allLagsDefined lags lagsE target exogs)
    ∧ (create_training_data lags lagsE target exogs).length
      = target.length - (listMax (usedLags lags lagsE)).toNat := by
  have hB : (create_training_data lags lagsE target exogs).map Prod.fst
      = (List.range target.length).filter
          (allLagsDefined lags lagsE target exogs) := by
    simp only [create_training_data, concatDropna]
    rw [map_fst_keyed]
    refine List.filter_congr ?_
    intro i hi
    rw [List.mem_range] at hi
    rw [Option.isSome_map', seqOptions_isSome, all_map', List.all_append]
    unfold allLagsDefined
    congr 1
    · cases lags with
      | none => rfl
      | some L =>
        simp only [List.all_cons, List.all_nil, Bool.and_true, Function.comp]
        rw [create_lagged_data_lookup, if_pos hi, seqOptions_isSome,
          all_map']
    · cases lagsE with
      | none => rfl
      | some E =>
        rw [all_map']
        refine all_congr' exogs ?_
        intro c hc
        show ((create_lagged_data c E).lookup i).isSome
            = E.all (fun l => (shiftIdx c l i).isSome)
        rw [create_lagged_data_lookup, hlen c hc, if_pos hi, seqOptions_isSome,
          all_map']
  refine ⟨hB, ?_⟩
  have h1 : (create_training_data lags lagsE target exogs).length
      = ((create_training_data lags lagsE target exogs).map Prod.fst).length :=
    (List.length_map _ _).symm
  rw [h1, hB]
  have h2 : ∀ i ∈ List.range target.length,
      allLagsDefined lags lagsE target exogs i
        = decide ((listMax (usedLags lags lagsE)).toNat ≤ i) := by
    intro i hi
    rw [List.mem_range] at hi
    have hiff : allLagsDefined lags lagsE target exogs i = true
        ↔ ∀ l ∈ usedLags lags lagsE, l ≤ (i : Int) := by
      unfold allLagsDefined usedLags at *
      cases lags with
      | none =>
        cases lagsE with
        | none => simp
        | some E =>
          obtain ⟨c0, rest, hexogs⟩ :=
            List.exists_cons_of_ne_nil (hex rfl)
          simp only [Option.getD_some, Option.getD_none, List.nil_append] at hpos ⊢
          simp only [Bool.true_and, List.all_eq_true, shiftIdx_isSome,
            decide_eq_true_eq]
          constructor
          · intro h l hl
            exact (h c0 (by rw [hexogs]; exact List.mem_cons_self c0 rest) l hl).1
          · intro h c hc l hl
            refine ⟨h l hl, ?_⟩
            have hcl := hlen c hc
            have hl0 := hpos l hl
            omega
      | some L =>
        cases lagsE with
        | none =>
          simp only [Option.getD_some, Option.getD_none, List.append_nil] at hpos ⊢
          simp only [Bool.and_true, List.all_eq_true, shiftIdx_isSome,
            decide_eq_true_eq]
          constructor
          · intro h l hl
            exact (h l hl).1
          · intro h l hl
            refine ⟨h l hl, ?_⟩
            have hl0 := hpos l hl
            omega
        | some E =>
          obtain ⟨c0, rest, hexogs⟩ :=
            List.exists_cons_of_ne_nil (hex rfl)
          simp only [Option.getD_some] at hpos ⊢
          simp only [Bool.and_eq_true, List.all_eq_true, shiftIdx_isSome,
            decide_eq_true_eq]
          constructor
          · intro h l hl
            rcases List.mem_append.mp hl with hL | hE
            · exact (h.1 l hL).1
            · exact (h.2 c0 (by rw [hexogs]; exact List.mem_cons_self c0 rest)
                l hE).1
          · intro h
            constructor
            · intro l hl
              refine ⟨h l (List.mem_append_left _ hl), ?_⟩
              have hl0 := hpos l (List.mem_append_left _ hl)
              omega
            · intro c hc l hl
              refine ⟨h l (List.mem_append_right _ hl), ?_⟩
              have hcl := hlen c hc
              have hl0 := hpos l (List.mem_append_right _ hl)
              omega
    have hMiff : (∀ l ∈ usedLags lags lagsE, l ≤ (i : Int))
        ↔ (listMax (usedLags lags lagsE)).toNat ≤ i := by
      constructor
      · intro h
        have h1' := listMax_le (Int.natCast_nonneg i) h
        omega
      · intro h l hl
        have h1' := le_listMax hl
        have h2' := listMax_nonneg (usedLags lags lagsE)
        omega
    have hfull := hiff.trans hMiff
    cases hval : allLagsDefined lags lagsE target exogs i with
    | true => exact (decide_eq_true (hfull.mp hval)).symm
    | false =>
      have hnot : ¬ (listMax (usedLags lags lagsE)).toNat ≤ i := by
        intro hM
        rw [hfull.mpr hM] at hval
        cases hval
      exact (decide_eq_false hnot).symm
  rw [List.filter_congr h2, length_filter_range]

/-- Witness for `training_rows_windowing`: `lags = [1, 2]`, no exogenous
series, target of 10 values — 8 retained rows, at positions 2 … 9. -/
theorem training_rows_windowing_witness :
    (create_training_data (some [1, 2]) none
        [0, 1, 2, 3, 4, 5, 6, 7, 8, 9] []).map Prod.fst
      = (List.range 10).filter (allLagsDefined (some [1, 2]) none
          [0, 1, 2, 3, 4, 5, 6, 7, 8, 9] [])
    ∧ (create_training_data (some [1, 2]) none
        [0, 1, 2, 3, 4, 5, 6, 7, 8, 9] []).length = 10 - 2 :=
  training_rows_windowing (some [1, 2]) none [0, 1, 2, 3, 4, 5, 6, 7, 8, 9] []
    (Or.inl rfl) (fun h => absurd h (by decide)) (by simp) (by decide)

end Darts
